import Mathlib

/-!
Shallow embedding of `asyncmongo/connection.py` (bufferx/asyncmongo).

The `Connection` class owns one socket, one pending completion callback, an
optional deferred (message, callback) pair used by the two-phase
authentication handshake, and a usage counter.  Stateful methods are embedded
as functions `ConnState → ... → Outcome`, where an `Outcome` records the
post-state, the trace of externally visible I/O effects (socket writes,
scheduled reads, pool re-caching, callback invocations), and the exception
propagated to the caller, if any.  Collaborators outside `src/`
(`message.query`, `helpers._unpack_response`, `helpers._auth_key`, the
backend stream, the pool) are modelled at their interface boundary: message
encoding yields a fresh correlator id, response decoding is an input of the
delivery functions, writes/reads/caching are trace effects.
-/

namespace Asyncmongo

/-- Exceptions that `connection.py` raises or passes to callbacks.
`connectionError` appears in the spec's taxonomy but is never produced by
the code (the spec claim about it is settled against the code).
`lookupError` stands for Python `KeyError`/`IndexError`/`TypeError` raised by
subscripting a missing field, `ioError` for `IOError` from stream
operations, `assertionError` for a failed `assert`. -/
inductive MongoError where
  | programmingError (msg : String)
  | interfaceError (msg : String)
  | authenticationError (msg : String)
  | integrityError (msg : String) (code : Int)
  | connectionError (msg : String)
  | decodeError (msg : String)
  | assertionError (msg : String)
  | lookupError (msg : String)
  | ioError
deriving Repr, DecidableEq

/-- The message wrapped into an exception that is re-raised
(`AuthenticationError(error)` wraps the triggering error). -/
def MongoError.msg : MongoError → String
  | .programmingError m => m
  | .interfaceError m => m
  | .authenticationError m => m
  | .integrityError m _ => m
  | .connectionError m => m
  | .decodeError m => m
  | .assertionError m => m
  | .lookupError m => m
  | .ioError => "IOError"

/-- A decoded BSON document, restricted to the fields `connection.py`
inspects: `err`/`code` (server-error detection in `_parse_response`),
`nonce` (nonce reply), `ok`/`errmsg` (authenticate reply).  `none` models an
absent key (`dict.get` returns `None`; subscripting raises `KeyError`). -/
structure Doc where
  err : Option String := none
  code : Option Int := none
  nonce : Option String := none
  ok : Option Int := none
  errmsg : Option String := none
deriving Repr, DecidableEq

/-- Python truthiness of `doc.get(field)` for a string-valued field:
`None` and `""` are falsy. -/
def truthyStr : Option String → Bool
  | none => false
  | some s => s ≠ ""

/-- Python truthiness of `doc.get(field)` for an int-valued field:
`None` and `0` are falsy. -/
def truthyInt : Option Int → Bool
  | none => false
  | some n => n ≠ 0

/-- Result of `helpers._unpack_response`: the fields `connection.py` uses
(`response['number_returned']`, `response['data']`).  The dict itself is
non-empty, hence truthy, whenever decoding succeeds. -/
structure MongoResponse where
  number_returned : Int
  data : List Doc
deriving Repr, DecidableEq

/-- What an outbound message is, for the purpose of distinguishing the two
authentication sub-requests from a user request in the write trace. -/
inductive MsgKind where
  | getnonce
  | authenticateCmd (nonce : String) (key : String)
  | userMsg (tag : Nat)
deriving Repr, DecidableEq

/-- A `(request_id, data)` pair as returned by `message.query`: the
correlator id embedded in the encoded bytes, plus the message payload
(abstracted to its kind). -/
structure WireMessage where
  requestId : Int
  kind : MsgKind
deriving Repr, DecidableEq

/-- A stored completion callback (`self.__callback`): either a caller's
completion (tagged by an opaque id) or one of the two bound methods the
authentication handshake installs. -/
inductive Callback where
  | user (tag : Nat)
  | startAuth
  | finishAuth
deriving Repr, DecidableEq

/-- Continuation registered with `stream.read`. -/
inductive ReadCont where
  | parseHeader
  | parseResponse
deriving Repr, DecidableEq

/-- Externally visible I/O effects, in program order. -/
inductive Effect where
  | socketOpen
  | addTimeout
  | streamConnect
  | setCloseCallback
  | write (msg : WireMessage)
  | read (n : Int) (cont : ReadCont)
  | poolCache
  | streamClose
  | invokeUser (tag : Nat) (resp : Option MongoResponse) (err : Option MongoError)
deriving Repr, DecidableEq

/-- The mutable state of a `Connection` object.  `nextRequestId` models the
request-id counter that the external `message` module keeps globally (each
`message.query` call embeds a fresh increasing id); it is threaded through
the connection state here so the embedding stays executable. -/
structure ConnState where
  alive : Bool
  authenticate : Bool
  hasUser : Bool
  hasPass : Bool
  autoreconnect : Bool
  callback : Option Callback
  requestId : Option Int
  deferredMessage : Option WireMessage
  deferredCallback : Option Callback
  usageCount : Nat
  timeoutSet : Bool
  nextRequestId : Int
deriving Repr, DecidableEq

/-- Result of running one Python method: post-state, effect trace, and the
exception propagated to the caller (`none` = normal return).  Object state
survives a raised exception, so the state is recorded in either case. -/
structure Outcome where
  state : ConnState
  effects : List Effect
  error : Option MongoError
deriving Repr, DecidableEq

/-- Normal return. -/
@[simp] def Outcome.ret (st : ConnState) (effs : List Effect) : Outcome :=
  ⟨st, effs, none⟩

/-- Exception propagating to the caller. -/
@[simp] def Outcome.raise (st : ConnState) (effs : List Effect) (e : MongoError) : Outcome :=
  ⟨st, effs, some e⟩

/-- Sequencing: run the continuation unless an exception is propagating. -/
def Outcome.chain (o : Outcome) (f : ConnState → Outcome) : Outcome :=
  match o.error with
  | some _ => o
  | none => let o2 := f o.state; ⟨o2.state, o.effects ++ o2.effects, o2.error⟩

/-- Modelled from the spec: the external key-derivation collaborator
`derive_key(nonce, user, pass) -> string` (`helpers._auth_key`, not under
`src/`).  Its value is irrelevant to all claims; modelled as a function of
the nonce only (the connection's credentials are fixed booleans here). -/
def authKey (nonce : String) : String :=
  nonce ++ ":key"

/-- Modelled from the spec: `message.query`/`encode_query` (module
`message`, not under `src/`) encodes a command and embeds a fresh
correlator id from a global counter; returns the updated counter state and
the `(request_id, data)` pair. -/
def freshMessage (st : ConnState) (k : MsgKind) : ConnState × WireMessage :=
  ({ st with nextRequestId := st.nextRequestId + 1 }, ⟨st.nextRequestId, k⟩)

/-- `Connection.__init__` up to (but not including) the `self.__connect()`
call at its end: all slots start empty/false. -/
def initConn (hasUser hasPass autoreconnect : Bool) (nextId : Int) : ConnState :=
  { alive := false
    authenticate := false
    hasUser := hasUser
    hasPass := hasPass
    autoreconnect := autoreconnect
    callback := none
    requestId := none
    deferredMessage := none
    deferredCallback := none
    usageCount := 0
    timeoutSet := false
    nextRequestId := nextId }

/-- `Connection.__connect` (tornado backend): reset `usage_count`, open a
socket and register the stream, arm the connect timeout, start the
non-blocking connect, register the close callback, mark alive; any
`socket.error` is re-raised as `InterfaceError(error)`.  Afterwards (outside
the `try`) set `self.__authenticate = True` iff both credentials are truthy.
`socketErr = some e` models `socket.error(e)` being raised inside the
`try`. -/
def connect_ (st : ConnState) (socketErr : Option String) : Outcome :=
  let st := { st with usageCount := 0 }
  match socketErr with
  | some e => .raise st [.socketOpen] (.interfaceError e)
  | none =>
    let st := { st with alive := true, timeoutSet := true }
    let st :=
      if st.hasUser && st.hasPass then { st with authenticate := true } else st
    .ret st [.socketOpen, .addTimeout, .streamConnect, .setCloseCallback]

/-- `Connection._send_message`: bump `usage_count`, unpack the message into
`(self.__request_id, data)`, write the bytes; if a callback is stored, read
the 16-byte header with continuation `_parse_header`, otherwise clear the
in-flight id and re-cache into the pool.  `ioOk = false` models an
`IOError` from the stream, which marks the connection not-alive and
re-raises. -/
def send_message_ (st : ConnState) (msg : WireMessage) (ioOk : Bool) : Outcome :=
  let st := { st with usageCount := st.usageCount + 1, requestId := some msg.requestId }
  if ioOk then
    match st.callback with
    | some _ => .ret st [.write msg, .read 16 .parseHeader]
    | none => .ret { st with requestId := none } [.write msg, .poolCache]
  else
    .raise { st with alive := false } [] .ioError

/-- `Connection._start_authentication(response, error)`: on `error`, raise
`AuthenticationError(error)` (note: the deferred pair is NOT cleared on
this exit); otherwise extract `response['data'][0]['nonce']`, derive the
key, install `_finish_authentication` as the callback and send the
`authenticate` command. -/
def start_authentication (st : ConnState) (resp : Option MongoResponse)
    (err : Option MongoError) (ioOk : Bool) : Outcome :=
  match err with
  | some e => .raise st [] (.authenticationError e.msg)
  | none =>
    match resp with
    | none => .raise st [] (.lookupError "NoneType is not subscriptable")
    | some r =>
      match r.data.head? with
      | none => .raise st [] (.lookupError "list index out of range")
      | some d =>
        match d.nonce with
        | none => .raise st [] (.lookupError "nonce")
        | some nc =>
          let key := authKey nc
          let st := { st with callback := some .finishAuth }
          let (st, m) := freshMessage st (.authenticateCmd nc key)
          send_message_ st m ioOk

/-- `Connection._finish_authentication(response, error)`: on `error`, clear
the deferred pair and raise `AuthenticationError`; assert
`response['number_returned'] == 1`; on `response['data'][0]['ok'] != 1` log
`response['errmsg']`, clear the deferred pair and raise; on success restore
the deferred callback as the active one, clear the deferred pair and
re-send the deferred message. -/
def finish_authentication (st : ConnState) (resp : Option MongoResponse)
    (err : Option MongoError) (ioOk : Bool) : Outcome :=
  match err with
  | some e =>
    .raise { st with deferredMessage := none, deferredCallback := none } []
      (.authenticationError e.msg)
  | none =>
    match resp with
    | none => .raise st [] (.lookupError "NoneType is not subscriptable")
    | some r =>
      if r.number_returned ≠ 1 then
        .raise st [] (.assertionError "number_returned == 1")
      else
        match r.data.head? with
        | none => .raise st [] (.lookupError "list index out of range")
        | some d =>
          match d.ok with
          | none => .raise st [] (.lookupError "ok")
          | some okv =>
            if okv ≠ 1 then
              match d.errmsg with
              | none => .raise st [] (.lookupError "errmsg")
              | some em =>
                .raise { st with deferredMessage := none, deferredCallback := none } []
                  (.authenticationError em)
            else
              let m := st.deferredMessage
              let cb := st.deferredCallback
              let st := { st with deferredMessage := none, deferredCallback := none,
                                  callback := cb }
              match m with
              | none => .raise st [] (.lookupError "NoneType is not iterable")
              | some msg => send_message_ st msg ioOk

/-- Invoking a stored callback with `(response, error)`: a caller's
completion is an external call (trace effect); the two bound authentication
methods run their embedded bodies. -/
def runCallback (st : ConnState) (cb : Callback) (resp : Option MongoResponse)
    (err : Option MongoError) (ioOk : Bool) : Outcome :=
  match cb with
  | .user tag => .ret st [.invokeUser tag resp err]
  | .startAuth => start_authentication st resp err ioOk
  | .finishAuth => finish_authentication st resp err ioOk

/-- `Connection._parse_response(response)` (the body-read continuation): a
no-op when no callback is pending; otherwise capture and clear the callback
and in-flight id, re-cache into the pool iff no deferred message is
outstanding, then deliver the decode result to the captured callback:
`callback(None, e)` on a decode exception, `callback(response,
IntegrityError(err, code))` when the first document's `err` and `code`
fields are both truthy, `callback(response)` otherwise.  `decoded` is the
result of the external `helpers._unpack_response` on the body bytes (a
successfully decoded dict is non-empty, hence truthy). -/
def parse_response (st : ConnState) (decoded : Except String MongoResponse)
    (ioOk : Bool) : Outcome :=
  match st.callback with
  | none => .ret st []
  | some cb =>
    let st1 := { st with requestId := none, callback := none }
    let pre : List Effect := if st1.deferredMessage = none then [.poolCache] else []
    let o :=
      match decoded with
      | .error e => runCallback st1 cb none (some (.decodeError e)) ioOk
      | .ok resp =>
        match resp.data with
        | [] => runCallback st1 cb (some resp) none ioOk
        | d :: _ =>
          if truthyStr d.err && truthyInt d.code then
            runCallback st1 cb (some resp)
              (some (.integrityError (d.err.getD "") (d.code.getD 0))) ioOk
          else
            runCallback st1 cb (some resp) none ioOk
    ⟨o.state, pre ++ o.effects, o.error⟩

/-- The little-endian signed 32-bit decode `struct.unpack("<i", bytes)[0]`
applied to a 4-byte slice (missing bytes read as 0). -/
def decodeLE32 (b : List Nat) : Int :=
  let u := b.getD 0 0 + 256 * b.getD 1 0 + 65536 * b.getD 2 0
      + 16777216 * b.getD 3 0
  if u < 2147483648 then (u : Int) else (u : Int) - 4294967296

/-- `Connection._parse_header(header)`: decode the total length (bytes
0–3), assert that the correlator (bytes 8–11) equals the stored
`__request_id`, assert that the opcode (bytes 12–15) equals 1, then read
`length - 16` body bytes with continuation `_parse_response`; an `IOError`
from the read marks the connection not-alive and re-raises. -/
def parse_header (st : ConnState) (header : List Nat) (ioOk : Bool) : Outcome :=
  let length := decodeLE32 (header.take 4)
  let request_id := decodeLE32 ((header.drop 8).take 4)
  if st.requestId ≠ some request_id then
    .raise st [] (.assertionError "ids don't match")
  else if decodeLE32 ((header.drop 12).take 4) ≠ 1 then
    .raise st [] (.assertionError "operation")
  else if ioOk then
    .ret st [.read (length - 16) .parseResponse]
  else
    .raise { st with alive := false } [] .ioError

/-- `Connection._get_nonce(callback)`: assert no callback is pending,
install the given callback (always `_start_authentication` at the call
site) and send a `getnonce` command. -/
def get_nonce (st : ConnState) (ioOk : Bool) : Outcome :=
  if st.callback ≠ none then
    .raise st [] (.assertionError "callback is None")
  else
    let st := { st with callback := some .startAuth }
    let (st, m) := freshMessage st .getnonce
    send_message_ st m ioOk

/-- `Connection.send_message(message, callback)`: raise `ProgrammingError`
if a callback is already pending; if not alive, reconnect when
`autoreconnect` else raise `InterfaceError`; if authentication is required,
stash the deferred pair and start the nonce fetch; otherwise install the
callback and send.  `cb = none` is a fire-and-forget call.  `socketErr`
feeds the reconnect attempt, `ioOk` the stream writes/reads. -/
def send_message (st : ConnState) (msg : WireMessage) (cb : Option Nat)
    (socketErr : Option String) (ioOk : Bool) : Outcome :=
  if st.callback ≠ none then
    .raise st [] (.programmingError "connection already in use")
  else
    let step1 : Outcome :=
      if !st.alive then
        if st.autoreconnect then connect_ st socketErr
        else .raise st [] (.interfaceError "connection invalid. autoreconnect=False")
      else
        .ret st []
    step1.chain fun st =>
      if st.authenticate then
        let st := { st with deferredMessage := some msg,
                            deferredCallback := cb.map .user }
        get_nonce st ioOk
      else
        let st := { st with callback := cb.map .user }
        send_message_ st msg ioOk

/-- `Connection._close`: if a callback is pending, invoke it with
`(None, InterfaceError('connection closed'))` — when that stored callback
is one of the authentication methods, the invocation itself raises and the
cleanup below never runs; otherwise clear the callback, mark not-alive and
close the stream. -/
def close_ (st : ConnState) (ioOk : Bool) : Outcome :=
  let o :=
    match st.callback with
    | some cb => runCallback st cb none (some (.interfaceError "connection closed")) ioOk
    | none => .ret st []
  o.chain fun st =>
    .ret { st with callback := none, alive := false } [.streamClose]

/-- `Connection.close`: `_close()` then re-cache into the pool. -/
def close (st : ConnState) (ioOk : Bool) : Outcome :=
  (close_ st ioOk).chain fun st => .ret st [.poolCache]

/-- `Connection._on_timeout`: clear the timer reference and `close()`. -/
def on_timeout (st : ConnState) (ioOk : Bool) : Outcome :=
  close { st with timeoutSet := false } ioOk

/-- The messages written to the socket, in order, within an effect trace. -/
def writes (effs : List Effect) : List WireMessage :=
  effs.filterMap fun e =>
    match e with
    | .write m => some m
    | _ => none

/-- Whether a written message is one of the authentication sub-requests. -/
def WireMessage.isAuthSub (m : WireMessage) : Bool :=
  match m.kind with
  | .getnonce => true
  | .authenticateCmd _ _ => true
  | .userMsg _ => false

end Asyncmongo

namespace Asyncmongo

/-- Detects the spec's `ConnectionError`, which the code never produces. -/
def isConnectionError : Option MongoError → Bool
  | some (.connectionError _) => true
  | _ => false

/-- A full first-request exchange on a credentialed connection:
`send_message`, then three header/body reply deliveries (nonce reply,
authenticate reply, user reply). -/
def authFlow (st0 : ConnState) (userMsg : WireMessage) (cb : Option Nat)
    (hdr1 : List Nat) (nonceResp : Except String MongoResponse)
    (hdr2 : List Nat) (authResp : Except String MongoResponse)
    (hdr3 : List Nat) (userResp : Except String MongoResponse) : Outcome :=
  (send_message st0 userMsg cb none true).chain fun s1 =>
    (parse_header s1 hdr1 true).chain fun s2 =>
      (parse_response s2 nonceResp true).chain fun s3 =>
        (parse_header s3 hdr2 true).chain fun s4 =>
          (parse_response s4 authResp true).chain fun s5 =>
            (parse_header s5 hdr3 true).chain fun s6 =>
              parse_response s6 userResp true

end Asyncmongo

namespace Asyncmongo

/-- C1: `send_message` on a connection whose completion callback is already
pending raises `ProgrammingError` synchronously, emits no I/O effect
whatsoever and leaves the state unchanged. -/
theorem send_message_busy (st : ConnState) (msg : WireMessage) (cb : Option Nat)
    (socketErr : Option String) (ioOk : Bool) (c : Callback)
    (h : st.callback = some c) :
    send_message st msg cb socketErr ioOk
      = ⟨st, [], some (.programmingError "connection already in use")⟩ := by
  simp [send_message, h]

/-- Witness for C1 at a concrete busy connection. -/
theorem send_message_busy_witness :
    send_message { initConn true true true 5 with callback := some (.user 0) }
        ⟨100, .userMsg 0⟩ (some 1) none true
      = ⟨{ initConn true true true 5 with callback := some (.user 0) }, [],
          some (.programmingError "connection already in use")⟩ :=
  send_message_busy _ _ _ _ _ (.user 0) rfl

/-- C8: a raw send with no stored completion callback writes the message,
clears the in-flight request id, immediately re-caches the connection into
the pool, and never issues a read. -/
theorem send_raw_fire_and_forget (st : ConnState) (msg : WireMessage)
    (h : st.callback = none) :
    send_message_ st msg true
      = ⟨{ st with usageCount := st.usageCount + 1, requestId := none },
          [.write msg, .poolCache], none⟩
      ∧ ∀ n c, Effect.read n c ∉ (send_message_ st msg true).effects := by
  refine ⟨by simp [send_message_, h], ?_⟩
  intro n c
  simp [send_message_, h]

/-- Witness for C8 at a concrete idle connection. -/
theorem send_raw_fire_and_forget_witness :
    send_message_ (initConn false false true 3) ⟨42, .userMsg 9⟩ true
      = ⟨{ initConn false false true 3 with usageCount := 1, requestId := none },
          [.write ⟨42, .userMsg 9⟩, .poolCache], none⟩
      ∧ ∀ n c, Effect.read n c ∉ (send_message_ (initConn false false true 3) ⟨42, .userMsg 9⟩ true).effects :=
  send_raw_fire_and_forget (initConn false false true 3) ⟨42, .userMsg 9⟩ rfl

/-- C9 counterexample: when the socket cannot be opened during (re)connect,
the raised error is `InterfaceError`, not the `ConnectionError` the claim
names (no `ConnectionError` is ever produced by the code). -/
theorem connect_fail_counterexample :
    (send_message (initConn false false true 0) ⟨1, .userMsg 0⟩ (some 0)
        (some "connection refused") true).error
      = some (.interfaceError "connection refused")
    ∧ isConnectionError
        (send_message (initConn false false true 0) ⟨1, .userMsg 0⟩ (some 0)
          (some "connection refused") true).error = false := by
  constructor <;> rfl

/-- C9 (amended): a socket error during `__connect` propagates as an
`InterfaceError` wrapping the underlying socket error, with exactly one
connect attempt (no internal retry). -/
theorem connect_socket_error (st : ConnState) (e : String) :
    connect_ st (some e)
      = ⟨{ st with usageCount := 0 }, [.socketOpen], some (.interfaceError e)⟩
    ∧ (connect_ st (some e)).effects.count .socketOpen = 1 := by
  constructor <;> simp [connect_]

/-- C10: in `_finish_authentication`, a transport-successful reply whose
`number_returned` differs from 1 fails the `assert` (an assertion error,
not an `AuthenticationError`), with no effect and no state change. -/
theorem finish_authentication_count_assert (st : ConnState) (r : MongoResponse)
    (ioOk : Bool) (h : r.number_returned ≠ 1) :
    finish_authentication st (some r) none ioOk
        = ⟨st, [], some (.assertionError "number_returned == 1")⟩
      ∧ ∀ m, (finish_authentication st (some r) none ioOk).error
          ≠ some (.authenticationError m) := by
  refine ⟨by simp [finish_authentication, h], ?_⟩
  intro m
  simp [finish_authentication, h]

/-- Witness for C10 at a concrete two-document reply. -/
theorem finish_authentication_count_assert_witness :
    finish_authentication (initConn true true true 8) (some ⟨2, [{}, {}]⟩) none true
        = ⟨initConn true true true 8, [], some (.assertionError "number_returned == 1")⟩
      ∧ ∀ m, (finish_authentication (initConn true true true 8) (some ⟨2, [{}, {}]⟩) none true).error
          ≠ some (.authenticationError m) :=
  finish_authentication_count_assert (initConn true true true 8) ⟨2, [{}, {}]⟩ true (by decide)

/-- C7 (code bug): a nonce-fetch failure exits the authentication handshake
by raising `AuthenticationError` while leaving both deferred slots still
populated — `_start_authentication`'s error path, unlike both error paths
of `_finish_authentication`, never clears them. -/
theorem start_authentication_error_leaves_deferred :
    (start_authentication
        { initConn true true true 6 with
            alive := true
            authenticate := true
            deferredMessage := some ⟨100, .userMsg 7⟩
            deferredCallback := some (.user 7) }
        none (some (.interfaceError "nonce fetch failed")) true).error
      = some (.authenticationError "nonce fetch failed")
    ∧ (start_authentication
        { initConn true true true 6 with
            alive := true
            authenticate := true
            deferredMessage := some ⟨100, .userMsg 7⟩
            deferredCallback := some (.user 7) }
        none (some (.interfaceError "nonce fetch failed")) true).state.deferredMessage
      = some ⟨100, .userMsg 7⟩
    ∧ (start_authentication
        { initConn true true true 6 with
            alive := true
            authenticate := true
            deferredMessage := some ⟨100, .userMsg 7⟩
            deferredCallback := some (.user 7) }
        none (some (.interfaceError "nonce fetch failed")) true).state.deferredCallback
      = some (.user 7) := by
  refine ⟨rfl, rfl, rfl⟩

end Asyncmongo

namespace Asyncmongo

/-- C3: `_parse_header` asserts that the little-endian 32-bit correlator at
bytes 8–11 equals the stored in-flight request id and that the field at
bytes 12–15 equals the reply opcode 1; either mismatch raises an assertion
failure with no effects (so before any body byte is read), and on success
exactly one read of `length - 16` bytes with the body continuation is
issued. -/
theorem parse_header_spec (st : ConnState) (header : List Nat) (rid : Int)
    (h : st.requestId = some rid) :
    (decodeLE32 ((header.drop 8).take 4) ≠ rid →
       parse_header st header true
         = ⟨st, [], some (.assertionError "ids don't match")⟩)
    ∧ (decodeLE32 ((header.drop 8).take 4) = rid →
       decodeLE32 ((header.drop 12).take 4) ≠ 1 →
       parse_header st header true
         = ⟨st, [], some (.assertionError "operation")⟩)
    ∧ (decodeLE32 ((header.drop 8).take 4) = rid →
       decodeLE32 ((header.drop 12).take 4) = 1 →
       parse_header st header true
         = ⟨st, [.read (decodeLE32 (header.take 4) - 16) .parseResponse], none⟩) := by
  refine ⟨?_, ?_, ?_⟩
  · intro h1
    simp [parse_header, h, Ne.symm h1]
  · intro h1 h2
    simp [parse_header, h, h1, h2]
  · intro h1 h2
    simp [parse_header, h, h1, h2]

/-- Witness for C3 at a concrete 16-byte header (length 36, correlator 5,
opcode 1) matching a stored request id of 5. -/
theorem parse_header_spec_witness :
    parse_header { initConn false false true 0 with requestId := some 5, callback := some (.user 0) }
        [36, 0, 0, 0, 0, 0, 0, 0, 5, 0, 0, 0, 1, 0, 0, 0] true
      = ⟨{ initConn false false true 0 with requestId := some 5, callback := some (.user 0) },
          [.read (decodeLE32 ([36, 0, 0, 0, 0, 0, 0, 0, 5, 0, 0, 0, 1, 0, 0, 0].take 4) - 16)
             .parseResponse], none⟩ :=
  (parse_header_spec _ [36, 0, 0, 0, 0, 0, 0, 0, 5, 0, 0, 0, 1, 0, 0, 0] 5 rfl).2.2
    (by decide) (by decide)

end Asyncmongo

namespace Asyncmongo

/-- C5: `_parse_response` with no pending completion is a no-op (identical
state, no effect); with a pending caller completion it clears the pending
callback and in-flight id, and exactly when no deferred message is
outstanding it emits the pool re-cache, which precedes the completion
invocation in the effect trace. -/
theorem parse_response_recache (st : ConnState) (tag : Nat)
    (decoded : Except String MongoResponse) (ioOk : Bool) :
    (st.callback = none → parse_response st decoded ioOk = ⟨st, [], none⟩)
    ∧ (st.callback = some (.user tag) →
        (parse_response st decoded ioOk).state.callback = none
        ∧ (parse_response st decoded ioOk).state.requestId = none
        ∧ (st.deferredMessage = none →
            ∃ r e, (parse_response st decoded ioOk).effects
              = [.poolCache, .invokeUser tag r e])
        ∧ (st.deferredMessage ≠ none →
            ∃ r e, (parse_response st decoded ioOk).effects
              = [.invokeUser tag r e])) := by
  constructor
  · intro h
    simp [parse_response, h]
  · intro h
    cases decoded with
    | error e =>
      refine ⟨by simp [parse_response, h, runCallback], by simp [parse_response, h, runCallback], ?_, ?_⟩
      · intro hd
        exact ⟨none, some (.decodeError e), by simp [parse_response, h, runCallback, hd]⟩
      · intro hd
        exact ⟨none, some (.decodeError e), by simp [parse_response, h, runCallback, hd]⟩
    | ok r =>
      cases hr : r.data with
      | nil =>
        refine ⟨by simp [parse_response, h, hr, runCallback], by simp [parse_response, h, hr, runCallback], ?_, ?_⟩
        · intro hd
          exact ⟨some r, none, by simp [parse_response, h, hr, runCallback, hd]⟩
        · intro hd
          exact ⟨some r, none, by simp [parse_response, h, hr, runCallback, hd]⟩
      | cons d rest =>
        by_cases hic : (truthyStr d.err && truthyInt d.code) = true
        · refine ⟨by simp [parse_response, h, hr, hic, runCallback], by simp [parse_response, h, hr, hic, runCallback], ?_, ?_⟩
          · intro hd
            exact ⟨some r, some (.integrityError (d.err.getD "") (d.code.getD 0)),
              by simp [parse_response, h, hr, hic, runCallback, hd]⟩
          · intro hd
            exact ⟨some r, some (.integrityError (d.err.getD "") (d.code.getD 0)),
              by simp [parse_response, h, hr, hic, runCallback, hd]⟩
        · refine ⟨by simp [parse_response, h, hr, hic, runCallback], by simp [parse_response, h, hr, hic, runCallback], ?_, ?_⟩
          · intro hd
            exact ⟨some r, none, by simp [parse_response, h, hr, hic, runCallback, hd]⟩
          · intro hd
            exact ⟨some r, none, by simp [parse_response, h, hr, hic, runCallback, hd]⟩

/-- Witness for C5 at a concrete pending completion with no deferred
message: the effects are exactly pool re-cache then completion. -/
theorem parse_response_recache_witness :
    (parse_response { initConn false false true 0 with alive := true, callback := some (.user 4), requestId := some 9 }
        (.ok ⟨1, [{}]⟩) true).state.callback = none
    ∧ (parse_response { initConn false false true 0 with alive := true, callback := some (.user 4), requestId := some 9 }
        (.ok ⟨1, [{}]⟩) true).state.requestId = none
    ∧ ∃ r e, (parse_response { initConn false false true 0 with alive := true, callback := some (.user 4), requestId := some 9 }
        (.ok ⟨1, [{}]⟩) true).effects = [.poolCache, .invokeUser 4 r e] := by
  have h := (parse_response_recache
    { initConn false false true 0 with alive := true, callback := some (.user 4), requestId := some 9 }
    4 (.ok ⟨1, [{}]⟩) true).2 rfl
  exact ⟨h.1, h.2.1, h.2.2.1 rfl⟩

end Asyncmongo

namespace Asyncmongo

/-- C4: with a pending caller completion, `_parse_response` delivers a
decode failure as `(None, decode error)`, a decoded reply whose first
document has truthy `err` and `code` fields (Python truthiness, the
implementation's test) as `(response, IntegrityError(err, code))`, and any
other decoded reply as the response with no error; the completion
invocation is the final effect in every case, and no exception escapes. -/
theorem parse_response_delivery (st : ConnState) (tag : Nat) (ioOk : Bool)
    (h : st.callback = some (.user tag)) :
    (∀ e, (parse_response st (.error e) ioOk).effects.getLast?
        = some (.invokeUser tag none (some (.decodeError e)))
      ∧ (parse_response st (.error e) ioOk).error = none)
    ∧ (∀ r d rest, r.data = d :: rest →
        (truthyStr d.err && truthyInt d.code) = true →
        (parse_response st (.ok r) ioOk).effects.getLast?
          = some (.invokeUser tag (some r)
              (some (.integrityError (d.err.getD "") (d.code.getD 0))))
        ∧ (parse_response st (.ok r) ioOk).error = none)
    ∧ (∀ r d rest, r.data = d :: rest →
        (truthyStr d.err && truthyInt d.code) = false →
        (parse_response st (.ok r) ioOk).effects.getLast?
          = some (.invokeUser tag (some r) none)
        ∧ (parse_response st (.ok r) ioOk).error = none)
    ∧ (∀ r, r.data = [] →
        (parse_response st (.ok r) ioOk).effects.getLast?
          = some (.invokeUser tag (some r) none)
        ∧ (parse_response st (.ok r) ioOk).error = none) := by
  refine ⟨?_, ?_, ?_, ?_⟩
  · intro e
    by_cases hd : st.deferredMessage = none <;>
      simp [parse_response, h, hd, runCallback]
  · intro r d rest hr hic
    by_cases hd : st.deferredMessage = none <;>
      simp [parse_response, h, hd, hr, hic, runCallback]
  · intro r d rest hr hic
    by_cases hd : st.deferredMessage = none <;>
      simp [parse_response, h, hd, hr, hic, runCallback]
  · intro r hr
    by_cases hd : st.deferredMessage = none <;>
      simp [parse_response, h, hd, hr, runCallback]

/-- Witness for C4: a decoded reply whose first document is
`{err: "E", code: 11000}` is delivered as an `IntegrityError`. -/
theorem parse_response_delivery_witness :
    (parse_response { initConn false false true 0 with alive := true, callback := some (.user 2), requestId := some 9 }
        (.ok ⟨1, [{ err := some "E", code := some 11000 }]⟩) true).effects.getLast?
      = some (.invokeUser 2 (some ⟨1, [{ err := some "E", code := some 11000 }]⟩)
          (some (.integrityError "E" 11000)))
    ∧ (parse_response { initConn false false true 0 with alive := true, callback := some (.user 2), requestId := some 9 }
        (.ok ⟨1, [{ err := some "E", code := some 11000 }]⟩) true).error = none :=
  (parse_response_delivery
      { initConn false false true 0 with alive := true, callback := some (.user 2), requestId := some 9 }
      2 true rfl).2.1
    ⟨1, [{ err := some "E", code := some 11000 }]⟩
    { err := some "E", code := some 11000 } [] rfl (by decide)

end Asyncmongo

namespace Asyncmongo

/-- C6 counterexample: when the timeout fires while the nonce-fetch handler
is the pending callback, `_close`'s invocation of that callback with the
`InterfaceError` re-raises `AuthenticationError`, so the connection is NOT
closed: it stays alive (the claim says every timeout transitions the
connection to not-alive). -/
theorem on_timeout_counterexample :
    (on_timeout { initConn true true true 2 with alive := true, callback := some Callback.startAuth, timeoutSet := true } true).state.alive = true
    ∧ (on_timeout { initConn true true true 2 with alive := true, callback := some Callback.startAuth, timeoutSet := true } true).state.timeoutSet = false
    ∧ (on_timeout { initConn true true true 2 with alive := true, callback := some Callback.startAuth, timeoutSet := true } true).error
      = some (.authenticationError "connection closed") := by
  refine ⟨rfl, rfl, rfl⟩

/-- C6 (amended): whenever the timeout fires, the timer reference is
cleared and `close()` runs, with no retry or backoff; if no completion or a
caller completion was pending, the connection transitions to not-alive (a
pending caller completion is invoked with `InterfaceError('connection
closed')` before the stream is closed and the connection re-cached); if an
authentication-internal handler was pending, it is invoked with the
`InterfaceError` but its re-raised `AuthenticationError` aborts the close,
leaving the connection alive and un-cached. -/
theorem on_timeout_spec (st : ConnState) (ioOk : Bool) :
    (on_timeout st ioOk).state.timeoutSet = false
    ∧ (st.callback = none →
        on_timeout st ioOk
          = ⟨{ st with timeoutSet := false, callback := none, alive := false },
              [.streamClose, .poolCache], none⟩)
    ∧ (∀ t, st.callback = some (.user t) →
        on_timeout st ioOk
          = ⟨{ st with timeoutSet := false, callback := none, alive := false },
              [.invokeUser t none (some (.interfaceError "connection closed")),
               .streamClose, .poolCache], none⟩)
    ∧ (st.callback = some .startAuth →
        on_timeout st ioOk
          = ⟨{ st with timeoutSet := false }, [],
              some (.authenticationError "connection closed")⟩)
    ∧ (st.callback = some .finishAuth →
        on_timeout st ioOk
          = ⟨{ st with timeoutSet := false, deferredMessage := none, deferredCallback := none },
              [], some (.authenticationError "connection closed")⟩) := by
  refine ⟨?_, ?_, ?_, ?_, ?_⟩
  · rcases h : st.callback with _ | c
    · simp [on_timeout, close, close_, h, runCallback, Outcome.chain]
    · cases c <;>
        simp [on_timeout, close, close_, h, runCallback, Outcome.chain,
          start_authentication, finish_authentication]
  · intro h
    simp [on_timeout, close, close_, h, runCallback, Outcome.chain]
  · intro t h
    simp [on_timeout, close, close_, h, runCallback, Outcome.chain]
  · intro h
    simp [on_timeout, close, close_, h, runCallback, Outcome.chain,
      start_authentication, MongoError.msg]
  · intro h
    simp [on_timeout, close, close_, h, runCallback, Outcome.chain,
      finish_authentication, MongoError.msg]

/-- Witness for C6 (amended) at a concrete connection with a pending caller
completion: the completion receives the `InterfaceError`, the stream is
closed, the connection is re-cached and marked not-alive. -/
theorem on_timeout_spec_witness :
    on_timeout { initConn true true true 2 with alive := true, callback := some (.user 3), timeoutSet := true } true
      = ⟨{ { initConn true true true 2 with alive := true, callback := some (.user 3), timeoutSet := true } with
            timeoutSet := false, callback := none, alive := false },
          [.invokeUser 3 none (some (.interfaceError "connection closed")),
           .streamClose, .poolCache], none⟩ :=
  (on_timeout_spec
      { initConn true true true 2 with alive := true, callback := some (.user 3), timeoutSet := true }
      true).2.2.1 3 rfl

end Asyncmongo

namespace Asyncmongo

/-- C2 (amended): on a freshly (re)connected credentialed connection,
exactly two authentication sub-requests — a `getnonce` command, then an
`authenticate` command — are written before the (single) user request, the
handshake completes without error, and the connection is left alive with
no pending callback; however, the authenticate flag is never cleared, so
the next `send_message` on the same still-alive connection again begins by
writing a `getnonce` sub-request rather than the user message. -/
theorem credentialed_requests_reauthenticate
    (arc : Bool) (n0 ridU ridV : Int) (tag tagU tagV tag2 : Nat) (nc : String)
    (hdr1 hdr2 hdr3 : List Nat)
    (userResp : Except String MongoResponse)
    (h1 : decodeLE32 ((hdr1.drop 8).take 4) = n0)
    (h1op : decodeLE32 ((hdr1.drop 12).take 4) = 1)
    (h2 : decodeLE32 ((hdr2.drop 8).take 4) = n0 + 1)
    (h2op : decodeLE32 ((hdr2.drop 12).take 4) = 1)
    (h3 : decodeLE32 ((hdr3.drop 8).take 4) = ridU)
    (h3op : decodeLE32 ((hdr3.drop 12).take 4) = 1) :
    writes (authFlow (connect_ (initConn true true arc n0) none).state
        ⟨ridU, .userMsg tagU⟩ (some tag) hdr1 (.ok ⟨1, [{ nonce := some nc }]⟩)
        hdr2 (.ok ⟨1, [{ ok := some 1 }]⟩) hdr3 userResp).effects
      = [⟨n0, .getnonce⟩, ⟨n0 + 1, .authenticateCmd nc (authKey nc)⟩,
         ⟨ridU, .userMsg tagU⟩]
    ∧ (authFlow (connect_ (initConn true true arc n0) none).state
        ⟨ridU, .userMsg tagU⟩ (some tag) hdr1 (.ok ⟨1, [{ nonce := some nc }]⟩)
        hdr2 (.ok ⟨1, [{ ok := some 1 }]⟩) hdr3 userResp).error = none
    ∧ (authFlow (connect_ (initConn true true arc n0) none).state
        ⟨ridU, .userMsg tagU⟩ (some tag) hdr1 (.ok ⟨1, [{ nonce := some nc }]⟩)
        hdr2 (.ok ⟨1, [{ ok := some 1 }]⟩) hdr3 userResp).state.alive = true
    ∧ (authFlow (connect_ (initConn true true arc n0) none).state
        ⟨ridU, .userMsg tagU⟩ (some tag) hdr1 (.ok ⟨1, [{ nonce := some nc }]⟩)
        hdr2 (.ok ⟨1, [{ ok := some 1 }]⟩) hdr3 userResp).state.authenticate = true
    ∧ (authFlow (connect_ (initConn true true arc n0) none).state
        ⟨ridU, .userMsg tagU⟩ (some tag) hdr1 (.ok ⟨1, [{ nonce := some nc }]⟩)
        hdr2 (.ok ⟨1, [{ ok := some 1 }]⟩) hdr3 userResp).state.callback = none
    ∧ writes (send_message
        (authFlow (connect_ (initConn true true arc n0) none).state
          ⟨ridU, .userMsg tagU⟩ (some tag) hdr1 (.ok ⟨1, [{ nonce := some nc }]⟩)
          hdr2 (.ok ⟨1, [{ ok := some 1 }]⟩) hdr3 userResp).state
        ⟨ridV, .userMsg tagV⟩ (some tag2) none true).effects
      = [⟨n0 + 2, .getnonce⟩] := by
  have tn : truthyStr (none : Option String) = false := rfl
  have tc : truthyInt (none : Option Int) = false := rfl
  cases userResp with
  | error e =>
    refine ⟨?_, ?_, ?_, ?_, ?_, ?_⟩ <;>
      (simp [authFlow, send_message, get_nonce, connect_, initConn, send_message_,
        parse_header, parse_response, runCallback, start_authentication,
        finish_authentication, freshMessage, Outcome.chain,
        h1, h1op, h2, h2op, h3, h3op, writes, tn, tc]
       <;> omega)
  | ok r =>
    cases hr : r.data with
    | nil =>
      refine ⟨?_, ?_, ?_, ?_, ?_, ?_⟩ <;>
        (simp [authFlow, send_message, get_nonce, connect_, initConn, send_message_,
          parse_header, parse_response, runCallback, start_authentication,
          finish_authentication, freshMessage, Outcome.chain, hr,
          h1, h1op, h2, h2op, h3, h3op, writes, tn, tc]
         <;> omega)
    | cons d rest =>
      cases hic : (truthyStr d.err && truthyInt d.code) <;>
        refine ⟨?_, ?_, ?_, ?_, ?_, ?_⟩ <;>
          (simp [authFlow, send_message, get_nonce, connect_, initConn, send_message_,
            parse_header, parse_response, runCallback, start_authentication,
            finish_authentication, freshMessage, Outcome.chain, hr, hic,
            h1, h1op, h2, h2op, h3, h3op, writes, tn, tc]
           <;> omega)

end Asyncmongo

namespace Asyncmongo

/-- Witness for C2 (amended) at concrete ids, nonce and headers. -/
theorem credentialed_requests_reauthenticate_witness :
    writes (authFlow (connect_ (initConn true true true 5) none).state
        ⟨100, .userMsg 0⟩ (some 0)
        [36, 0, 0, 0, 0, 0, 0, 0, 5, 0, 0, 0, 1, 0, 0, 0] (.ok ⟨1, [{ nonce := some "abc" }]⟩)
        [36, 0, 0, 0, 0, 0, 0, 0, 6, 0, 0, 0, 1, 0, 0, 0] (.ok ⟨1, [{ ok := some 1 }]⟩)
        [36, 0, 0, 0, 0, 0, 0, 0, 100, 0, 0, 0, 1, 0, 0, 0] (.ok ⟨1, [{}]⟩)).effects
      = [⟨5, .getnonce⟩, ⟨5 + 1, .authenticateCmd "abc" (authKey "abc")⟩,
         ⟨100, .userMsg 0⟩]
    ∧ (authFlow (connect_ (initConn true true true 5) none).state
        ⟨100, .userMsg 0⟩ (some 0)
        [36, 0, 0, 0, 0, 0, 0, 0, 5, 0, 0, 0, 1, 0, 0, 0] (.ok ⟨1, [{ nonce := some "abc" }]⟩)
        [36, 0, 0, 0, 0, 0, 0, 0, 6, 0, 0, 0, 1, 0, 0, 0] (.ok ⟨1, [{ ok := some 1 }]⟩)
        [36, 0, 0, 0, 0, 0, 0, 0, 100, 0, 0, 0, 1, 0, 0, 0] (.ok ⟨1, [{}]⟩)).error = none
    ∧ (authFlow (connect_ (initConn true true true 5) none).state
        ⟨100, .userMsg 0⟩ (some 0)
        [36, 0, 0, 0, 0, 0, 0, 0, 5, 0, 0, 0, 1, 0, 0, 0] (.ok ⟨1, [{ nonce := some "abc" }]⟩)
        [36, 0, 0, 0, 0, 0, 0, 0, 6, 0, 0, 0, 1, 0, 0, 0] (.ok ⟨1, [{ ok := some 1 }]⟩)
        [36, 0, 0, 0, 0, 0, 0, 0, 100, 0, 0, 0, 1, 0, 0, 0] (.ok ⟨1, [{}]⟩)).state.alive = true
    ∧ (authFlow (connect_ (initConn true true true 5) none).state
        ⟨100, .userMsg 0⟩ (some 0)
        [36, 0, 0, 0, 0, 0, 0, 0, 5, 0, 0, 0, 1, 0, 0, 0] (.ok ⟨1, [{ nonce := some "abc" }]⟩)
        [36, 0, 0, 0, 0, 0, 0, 0, 6, 0, 0, 0, 1, 0, 0, 0] (.ok ⟨1, [{ ok := some 1 }]⟩)
        [36, 0, 0, 0, 0, 0, 0, 0, 100, 0, 0, 0, 1, 0, 0, 0] (.ok ⟨1, [{}]⟩)).state.authenticate = true
    ∧ (authFlow (connect_ (initConn true true true 5) none).state
        ⟨100, .userMsg 0⟩ (some 0)
        [36, 0, 0, 0, 0, 0, 0, 0, 5, 0, 0, 0, 1, 0, 0, 0] (.ok ⟨1, [{ nonce := some "abc" }]⟩)
        [36, 0, 0, 0, 0, 0, 0, 0, 6, 0, 0, 0, 1, 0, 0, 0] (.ok ⟨1, [{ ok := some 1 }]⟩)
        [36, 0, 0, 0, 0, 0, 0, 0, 100, 0, 0, 0, 1, 0, 0, 0] (.ok ⟨1, [{}]⟩)).state.callback = none
    ∧ writes (send_message
        (authFlow (connect_ (initConn true true true 5) none).state
          ⟨100, .userMsg 0⟩ (some 0)
          [36, 0, 0, 0, 0, 0, 0, 0, 5, 0, 0, 0, 1, 0, 0, 0] (.ok ⟨1, [{ nonce := some "abc" }]⟩)
          [36, 0, 0, 0, 0, 0, 0, 0, 6, 0, 0, 0, 1, 0, 0, 0] (.ok ⟨1, [{ ok := some 1 }]⟩)
          [36, 0, 0, 0, 0, 0, 0, 0, 100, 0, 0, 0, 1, 0, 0, 0] (.ok ⟨1, [{}]⟩)).state
        ⟨101, .userMsg 1⟩ (some 1) none true).effects
      = [⟨5 + 2, .getnonce⟩] :=
  credentialed_requests_reauthenticate true 5 100 101 0 0 1 1 "abc"
    [36, 0, 0, 0, 0, 0, 0, 0, 5, 0, 0, 0, 1, 0, 0, 0]
    [36, 0, 0, 0, 0, 0, 0, 0, 6, 0, 0, 0, 1, 0, 0, 0]
    [36, 0, 0, 0, 0, 0, 0, 0, 100, 0, 0, 0, 1, 0, 0, 0]
    (.ok ⟨1, [{}]⟩) (by decide) (by decide) (by decide) (by decide) (by decide) (by decide)

/-- C2 counterexample: after a completed first request on a credentialed
connection (still alive, idle), the next `send_message` writes a `getnonce`
authentication sub-request — not zero authentication sub-requests as the
claim states. -/
theorem second_request_sends_auth_counterexample :
    (authFlow (connect_ (initConn true true true 5) none).state
        ⟨100, .userMsg 0⟩ (some 0)
        [36, 0, 0, 0, 0, 0, 0, 0, 5, 0, 0, 0, 1, 0, 0, 0] (.ok ⟨1, [{ nonce := some "abc" }]⟩)
        [36, 0, 0, 0, 0, 0, 0, 0, 6, 0, 0, 0, 1, 0, 0, 0] (.ok ⟨1, [{ ok := some 1 }]⟩)
        [36, 0, 0, 0, 0, 0, 0, 0, 100, 0, 0, 0, 1, 0, 0, 0] (.ok ⟨1, [{}]⟩)).state.alive = true
    ∧ (writes (send_message
        (authFlow (connect_ (initConn true true true 5) none).state
          ⟨100, .userMsg 0⟩ (some 0)
          [36, 0, 0, 0, 0, 0, 0, 0, 5, 0, 0, 0, 1, 0, 0, 0] (.ok ⟨1, [{ nonce := some "abc" }]⟩)
          [36, 0, 0, 0, 0, 0, 0, 0, 6, 0, 0, 0, 1, 0, 0, 0] (.ok ⟨1, [{ ok := some 1 }]⟩)
          [36, 0, 0, 0, 0, 0, 0, 0, 100, 0, 0, 0, 1, 0, 0, 0] (.ok ⟨1, [{}]⟩)).state
        ⟨101, .userMsg 1⟩ (some 1) none true).effects).filter WireMessage.isAuthSub
      = [⟨7, .getnonce⟩] := by
  refine ⟨rfl, rfl⟩

end Asyncmongo
